import Mathlib

/-!
# Verification of the Obelisk RAG core against its specification

This file gives a shallow embedding, in Lean 4, of the query-time
retrieval-augmentation pipeline of the Obelisk repository:

* the embedding service (`src/obelisk/rag/embedding/service.py`),
* the Milvus-backed vector storage (`src/obelisk/rag/storage/store.py`),
* the document processor (`src/obelisk/rag/document/processor.py`),
* the provider abstraction and factory (`src/obelisk/rag/common/models.py`,
  `src/obelisk/rag/common/providers.py`),
* the RAG coordinator (`src/obelisk/rag/service/coordinator.py`),
* the environment-variable configuration coercion
  (`src/obelisk/rag/common/config.py`).

External collaborators (the LiteLLM / Ollama / OpenAI backends, the Milvus
client, the YAML parser and the langchain text splitter) are modelled as
explicit function parameters, so every theorem quantifies over their
behaviour.  Python exceptions raised by a backend are modelled with
`Except`; Python `dict`s are modelled as insertion-ordered association
lists, matching Python's guaranteed dict ordering.
-/

set_option autoImplicit false

namespace Obelisk

/-- A Python value stored in a `Document.metadata` dict.  The constructors
mirror the `isinstance(value, (str, int, float, bool, list, dict))` check in
`VectorStorage.add_documents`; `other` stands for any Python object outside
those types (for example a `datetime.date` produced by YAML front matter) and
carries the string returned by Python's `str()` on it. -/
inductive MetaVal where
  | str (s : String)
  | int (n : Int)
  | float (q : ℚ)
  | bool (b : Bool)
  | list (xs : List MetaVal)
  | dict (xs : List (String × MetaVal))
  | other (pyStr : String)
  deriving Repr

/-- A metadata dict: insertion-ordered association list with unique keys,
as Python dicts are. -/
abbrev Metadata := List (String × MetaVal)

/-- A langchain `Document`: page content plus a metadata dict. -/
structure PyDocument where
  page_content : String
  metadata : Metadata
  deriving Repr

/-- An embedding vector.  Python floats are modelled as rationals; none of
the verified code inspects the numeric values. -/
abbrev Embedding := List ℚ

/-! ## Python string primitives

The document processor manipulates strings with `str.find`, slicing,
`str.strip` and `str.split`; these are reproduced here over the character
sequence of the string (Python indices are character indices). -/

/-- Python `s.find(pat, start)`: index of the first occurrence of `pat` in
`s` at or after character index `start`, or `none` (Python returns `-1`). -/
def pyFind (s pat : String) (start : Nat) : Option Nat :=
  (List.range' start (s.length + 1 - start)).find?
    (fun i => pat.toList.isPrefixOf (s.toList.drop i))

/-- Python slice `s[a:b]` (with `0 ≤ a ≤ b` the usual case). -/
def pySlice (s : String) (a b : Nat) : String :=
  ⟨(s.toList.drop a).take (b - a)⟩

/-- The whitespace set stripped by Python's `str.strip()`. -/
def pyIsSpace (c : Char) : Bool :=
  c == ' ' || c == '\t' || c == '\n' || c == '\r' ||
    c == Char.ofNat 11 || c == Char.ofNat 12

/-- Python `s.strip()` on the character sequence: remove leading and
trailing whitespace characters. -/
def stripChars (l : List Char) : List Char :=
  ((l.dropWhile pyIsSpace).reverse.dropWhile pyIsSpace).reverse

/-- Python `s.strip()`: remove leading and trailing whitespace. -/
def pyStrip (s : String) : String :=
  ⟨stripChars s.toList⟩

/-- Python `s.split('\n')` on the character sequence (keeps empty
fields). -/
def splitOnNlChars : List Char → List (List Char)
  | [] => [[]]
  | c :: rest =>
    match splitOnNlChars rest with
    | [] => [[]]
    | h :: t => if c == '\n' then [] :: h :: t else (c :: h) :: t

/-- Python `s.split('\n')` (keeps empty fields; `"".split` is `[""]`). -/
def pySplitNl (s : String) : List String :=
  (splitOnNlChars s.toList).map (fun l => ⟨l⟩)

/-- Python `s.lower()` (the relevant keyword strings are ASCII). -/
def pyLower (s : String) : String :=
  ⟨s.toList.map Char.toLower⟩

/-- Python `pat in s` substring test. -/
def pyContains (s pat : String) : Bool :=
  (pyFind s pat 0).isSome

/-! ## Embedding service (`EmbeddingService`, `embedding/service.py`)

The underlying provider embeddings object (`self.embeddings_model`) is a
backend network client; its two operations are modelled as `Except`-valued
parameters, where `Except.error` stands for a raised Python exception.
The pair returned by each model records, next to the Python return value,
whether the backend was invoked at all. -/

/-- Model of `EmbeddingService.embed_documents` (service.py lines 59-71): empty input
short-circuits to `[]`; otherwise the backend is called once on the whole
batch and any exception is converted to `[]`.  The `Bool` component records
whether `self.embeddings_model.embed_documents` was invoked. -/
def embedDocuments (backend : List String → Except String (List Embedding))
    (texts : List String) : List Embedding × Bool :=
  if texts.isEmpty then ([], false)
  else
    match backend texts with
    | .ok es => (es, true)
    | .error _ => ([], true)

/-- Model of `EmbeddingService.embed_query` (service.py lines 73-79): the backend is
called on the query; any exception is converted to the empty vector. -/
def embedQuery (backend : String → Except String Embedding)
    (query : String) : Embedding :=
  match backend query with
  | .ok e => e
  | .error _ => []

/-! ## Vector storage (`VectorStorage`, `storage/store.py`)

The Milvus collection is a remote backend; its `search`, `insert` and
`flush` calls are modelled as parameters.  `Except.error` again stands for a
raised `MilvusException` (or any other exception). -/

/-- One Milvus search hit, carrying the requested output fields. -/
structure MilvusHit where
  data : String
  metadata : Metadata
  docId : MetaVal
  deriving Repr

/-- Model of `VectorStorage.search_with_embedding` (store.py lines 194-235).

`retrieveTopK` models `self.config.get("retrieve_top_k", 5)`,
`embeddingDim` models `self.embedding_dim`, and `backendSearch` models
`self.collection.search` restricted to the parameters that vary (the query
vector and the `limit`).  The second component of the result lists the
queries actually issued to the backend, as (vector, limit) pairs: the
dimension check returns before any backend call. -/
def searchWithEmbedding (retrieveTopK : Nat) (embeddingDim : Nat)
    (backendSearch : Embedding → Nat → Except String (List MilvusHit))
    (embedding : Embedding) (kArg : Option Nat) :
    List PyDocument × List (Embedding × Nat) :=
  let k := kArg.getD retrieveTopK
  if embedding.length ≠ embeddingDim then ([], [])
  else
    match backendSearch embedding k with
    | .ok hits =>
        (hits.map (fun h => ⟨h.data, h.metadata⟩), [(embedding, k)])
    | .error _ => ([], [(embedding, k)])

/-- The metadata filtering step of `add_documents` (store.py lines 142-148):
values of the six JSON-compatible Python types are kept unchanged, any other
value is replaced by `str(value)`. -/
def coerceMetaVal : MetaVal → MetaVal
  | .other s => .str s
  | v => v

/-- Is the value one of the six types kept unchanged by the filter? -/
def isSerializable : MetaVal → Bool
  | .other _ => false
  | _ => true

/-- The filtered metadata dict of one document (store.py lines 142-150). -/
def filterMetadata (meta : Metadata) : Metadata :=
  meta.map (fun kv => (kv.1, coerceMetaVal kv.2))

/-- Python `d.get(key, default)` on a metadata dict. -/
def dictGetD (meta : Metadata) (key : String) (dflt : MetaVal) : MetaVal :=
  match meta.find? (fun kv => kv.1 == key) with
  | some kv => kv.2
  | none => dflt

/-- Python `d.get(key)` as an `Option`. -/
def dictGet? (meta : Metadata) (key : String) : Option MetaVal :=
  (meta.find? (fun kv => kv.1 == key)).map (·.2)

/-- The batch handed to `self.collection.insert` in `add_documents`
(store.py lines 153-163); field order matches the collection schema
`id, vector, data, metadata, doc_id`. -/
structure InsertBatch where
  ids : List String
  vectors : List Embedding
  contents : List String
  metadatas : List Metadata
  docIds : List MetaVal
  deriving Repr

/-- An effect of `add_documents` on the Milvus collection. -/
inductive StoreEffect where
  | insert (batch : InsertBatch)
  | flush
  deriving Repr

/-- The batch built by the loop of store.py lines 130-161 for a document
list: per-document fresh identifiers (`idGen i` models the `str(uuid.uuid4())`
drawn for the `i`-th document), the embeddings of all page contents obtained
by one batch call, the raw contents, the filtered metadata dicts and the
per-document `doc_id` values (`filtered_metadata.get("source", "unknown")`,
line 151). -/
def insertBatchOf (idGen : Nat → String) (embed : List String → List Embedding)
    (documents : List PyDocument) : InsertBatch :=
  let texts := documents.map (·.page_content)
  let metadatas := documents.map (fun d => filterMetadata d.metadata)
  { ids := (List.range documents.length).map idGen
    vectors := embed texts
    contents := texts
    metadatas := metadatas
    docIds := metadatas.map (fun m => dictGetD m "source" (.str "unknown")) }

/-- Model of `VectorStorage.add_documents` (store.py lines 115-173).

* `idGen i` models the `str(uuid.uuid4())` drawn for the `i`-th document;
* `embedSvc` is `self.embedding_service` (`none` when not configured), and
  when present its value is the already-exception-free
  `EmbeddingService.embed_documents` (which returns `[]` on failure);
* `insertBackend` models `self.collection.insert`, returning the assigned
  `primary_keys` or raising.

The result pairs the Python return value with the list of collection
effects performed.  Every raised exception is caught and converted to `[]`,
so the model is a total function. -/
def addDocuments (idGen : Nat → String)
    (embedSvc : Option (List String → List Embedding))
    (insertBackend : InsertBatch → Except String (List String))
    (documents : List PyDocument) : List String × List StoreEffect :=
  if documents.isEmpty then ([], [])
  else
    match embedSvc with
    | none => ([], [])
    | some embed =>
      let batch := insertBatchOf idGen embed documents
      match insertBackend batch with
      | .ok keys => (keys, [.insert batch, .flush])
      | .error _ => ([], [.insert batch])

/-! ## Provider abstraction (`common/models.py`, `common/providers.py`) -/

/-- The `ProviderType` enum (models.py lines 18-22). -/
inductive ProviderType where
  | litellm
  | ollama
  | openai
  deriving DecidableEq, Repr

/-- The `.value` string of a `ProviderType` member. -/
def ProviderType.value : ProviderType → String
  | .litellm => "litellm"
  | .ollama => "ollama"
  | .openai => "openai"

/-- The `.name` of a `ProviderType` member (used by Python's enum repr). -/
def ProviderType.enumName : ProviderType → String
  | .litellm => "LITELLM"
  | .ollama => "OLLAMA"
  | .openai => "OPENAI"

/-- Python `repr()` of a `ProviderType` member, as it appears when a list of
members is interpolated into an f-string. -/
def ProviderType.pyRepr (t : ProviderType) : String :=
  "<ProviderType." ++ t.enumName ++ ": " ++ "\x27" ++ t.value ++ "\x27>"

/-- The enum constructor `ProviderType(s)` (models.py line 204): succeeds
exactly on the three declared `.value` strings. -/
def providerTypeOfString (s : String) : Option ProviderType :=
  if s = "litellm" then some .litellm
  else if s = "ollama" then some .ollama
  else if s = "openai" then some .openai
  else none

/-- A provider instance.  `instanceId` distinguishes separately constructed
instances of the same class (Python object identity). -/
structure Provider where
  providerType : ProviderType
  instanceId : Nat
  deriving DecidableEq, Repr

/-- The argument of `ProviderFactory.create_provider`: Python type
annotation `Union[ProviderType, str]`. -/
inductive PTypeOrString where
  | ptype (t : ProviderType)
  | name (s : String)
  deriving Repr

/-- A provider configuration dict; its contents are irrelevant to the
verified claims, so it is kept abstract as an association list of strings. -/
abbrev ProviderConfig := List (String × String)

/-- The factory registry `ProviderFactory._providers`: an insertion-ordered
dict from provider type to provider class, a class being modelled as a
constructor function from the config to an instance. -/
abbrev ProviderRegistry := List (ProviderType × (ProviderConfig → Provider))

/-- Python `repr()` of `list(cls._providers.keys())`. -/
def registryKeysRepr (registry : ProviderRegistry) : String :=
  "[" ++ String.intercalate ", " (registry.map (fun rc => rc.1.pyRepr)) ++ "]"

/-- Model of `ProviderFactory.create_provider` (models.py lines 187-213).  A raised
`ValueError` is modelled as `Except.error` carrying the exception message.
A string argument is first converted through the `ProviderType` enum
constructor; an unknown name raises `"Unknown provider type: ..."` (line
206), and a known type missing from the registry raises the
`"... not registered. Available providers: ..."` message (lines 208-210). -/
def createProvider (registry : ProviderRegistry) (arg : PTypeOrString)
    (config : ProviderConfig) : Except String Provider :=
  let resolved : Except String ProviderType :=
    match arg with
    | .ptype t => .ok t
    | .name s =>
      match providerTypeOfString s with
      | some t => .ok t
      | none => .error ("Unknown provider type: " ++ s)
  match resolved with
  | .error e => .error e
  | .ok t =>
    match registry.find? (fun rc => rc.1 == t) with
    | some rc => .ok (rc.2 config)
    | none =>
      .error ("Provider " ++ t.value ++ " not registered. " ++
        "Available providers: " ++ registryKeysRepr registry)

/-- Does a `create_provider` error message name the set of available
(registered) provider types?  The message of the registered-check branch
embeds `list(cls._providers.keys())`; the unknown-name branch does not. -/
def errNamesAvailableSet (msg : String) : Bool :=
  pyContains msg "Available providers: "

/-! ### Provider health checks (`common/providers.py`)

Each `health_check` performs one backend probe inside `try/except`; the
probe is modelled as an `Except`-valued parameter whose `error` case is a
raised exception. -/

/-- Model of `LiteLLMProvider.health_check` (providers.py lines 268-286): issues a
1-token `completion` call; any exception yields `False`, any non-raising
outcome yields `True`. -/
def litellmHealthCheck (completionProbe : Except String Unit) : Bool :=
  match completionProbe with
  | .ok _ => true
  | .error _ => false

/-- Model of `OllamaProvider.health_check` (providers.py lines 358-364): issues
`httpx.get(f"{base}/api/tags")`; the result is `status_code == 200`, and any
exception yields `False`. -/
def ollamaHealthCheck (httpProbe : Except String Nat) : Bool :=
  match httpProbe with
  | .ok status => status == 200
  | .error _ => false

/-- Model of `OpenAIProvider.health_check` (providers.py lines 433-441): embeds the
string `"test"`; any exception yields `False`, otherwise `True`. -/
def openaiHealthCheck (embedProbe : Except String Embedding) : Bool :=
  match embedProbe with
  | .ok _ => true
  | .error _ => false

/-! ## RAG coordinator (`RAGService.query`, `service/coordinator.py`) -/

/-- The query-relevant state of a `RAGService` instance: its shared default
provider (`self.provider`), default model name (`self.llm_model`) and the
configured `retrieve_top_k`. -/
structure Coordinator where
  provider : Provider
  llmModel : String
  retrieveTopK : Option Nat
  deriving Repr

/-- The dictionary returned by `RAGService.query` (coordinator.py lines
157-162 and 185-190). -/
structure QueryResult where
  query : String
  context : List PyDocument
  response : String
  no_context : Bool
  deriving Repr

/-- Everything observable about one `RAGService.query` call. -/
structure QueryOutcome where
  result : QueryResult
  /-- Providers constructed on the fly during the call (line 137). -/
  newProviders : List Provider
  /-- The provider whose `get_llm` handle serves the completion. -/
  usedProvider : Provider
  /-- The prompt string passed to `llm.invoke`. -/
  promptSent : String
  /-- The coordinator state after the call (the method assigns no
  instance attribute, so this is the input state). -/
  coordinatorAfter : Coordinator
  deriving Repr

/-- The fixed instruction template of coordinator.py lines 171-178. -/
def ragPrompt (contextText queryText : String) : String :=
  "Answer the following question based on the provided context. " ++
  "If the context does not contain relevant information, just say so" ++
  " - do not make up an answer.\n\nContext:\n" ++ contextText ++
  "\n\nQuestion: " ++ queryText ++ "\n\nAnswer:"

/-- The `"Document {i+1}:\n{doc.page_content}"` block for index `i`
(coordinator.py line 166). -/
def documentBlock (i : Nat) (doc : PyDocument) : String :=
  let n := i + 1
  let body := doc.page_content
  s!"Document {n}:\n{body}"

/-- The joined context text of coordinator.py lines 165-168. -/
def contextText (docs : List PyDocument) : String :=
  String.intercalate "\n\n" (docs.enum.map (fun p => documentBlock p.1 p.2))

/-- Model of `RAGService.query` (coordinator.py lines 97-190).

* `embedQueryFn` is `self.embedding_service.embed_query` (total: it never
  raises, see `embedQuery`);
* `searchFn` is `self.storage_service.search_with_embedding`, called with
  `k = self.config.get("retrieve_top_k")` (line 131);
* `factory t` models `ModelProviderFactory.create(t, self.config)` with the
  coordinator's config fixed;
* `invoke p prompt` models `p.get_llm(...).invoke(prompt)` normalised to
  text (lines 156 and 183) — the model/temperature/max_tokens overrides
  only parameterise the handle and are absorbed into `invoke`.

The optional provider override of lines 134-149, factored out below as
`resolveQueryProvider`, constructs a temporary provider exactly when the
override is present and differs from the default provider's type; the
second component lists the providers constructed on the fly. -/
def resolveQueryProvider (factory : ProviderType → Provider)
    (co : Coordinator) (providerOverride : Option ProviderType) :
    Provider × List Provider :=
  match providerOverride with
  | some t =>
    if t ≠ co.provider.providerType then
      let temp := factory t
      (temp, [temp])
    else (co.provider, [])
  | none => (co.provider, [])

/-- The body of `RAGService.query`; see `resolveQueryProvider` above for
the parameter conventions. -/
def ragQuery (embedQueryFn : String → Embedding)
    (searchFn : Embedding → Option Nat → List PyDocument)
    (factory : ProviderType → Provider)
    (invoke : Provider → String → String)
    (co : Coordinator) (queryText : String)
    (providerOverride : Option ProviderType) : QueryOutcome :=
  let queryEmbedding := embedQueryFn queryText
  let docs := searchFn queryEmbedding co.retrieveTopK
  let resolved := resolveQueryProvider factory co providerOverride
  if docs.isEmpty then
    { result := ⟨queryText, [], invoke resolved.1 queryText, true⟩,
      newProviders := resolved.2,
      usedProvider := resolved.1,
      promptSent := queryText,
      coordinatorAfter := co }
  else
    let prompt := ragPrompt (contextText docs) queryText
    { result := ⟨queryText, docs, invoke resolved.1 prompt, false⟩,
      newProviders := resolved.2,
      usedProvider := resolved.1,
      promptSent := prompt,
      coordinatorAfter := co }

/-! ## Document processor (`DocumentProcessor`, `document/processor.py`) -/

/-- The outcome of `yaml.safe_load(frontmatter_str)` in
`_extract_metadata` (processor.py lines 118-123):

* `dict kvs` — parsing succeeded and produced a mapping;
* `nonDict` — parsing succeeded but did not produce a mapping (the
  `isinstance(frontmatter, dict)` check fails and no keys are added);
* `yamlError` — a `yaml.YAMLError` was raised (line 124), triggering the
  naive line-splitting fallback;
* `raised` — some other exception was raised, caught by the outer
  `except Exception` of lines 131-133. -/
inductive YamlOutcome where
  | dict (kvs : List (String × MetaVal))
  | nonDict
  | yamlError
  | raised
  deriving Repr

/-- Python `d[k] = v` on an insertion-ordered dict: an existing key keeps
its position and gets the new value, a new key is appended. -/
def dictInsert (m : Metadata) (k : String) (v : MetaVal) : Metadata :=
  if m.any (fun kv => kv.1 == k) then
    m.map (fun kv => if kv.1 == k then (k, v) else kv)
  else m ++ [(k, v)]

/-- One iteration of the fallback parser (processor.py lines 127-130):
`if ':' in line: key, value = line.split(':', 1)`, keys and values
stripped. -/
def naiveParseLine (line : String) : Option (String × String) :=
  match pyFind line ":" 0 with
  | some i =>
      some (pyStrip (pySlice line 0 i), pyStrip (pySlice line (i + 1) line.length))
  | none => none

/-- The fallback metadata accumulation over the front-matter lines
(processor.py lines 127-130). -/
def naiveFallback (meta : Metadata) (frontmatterStr : String) : Metadata :=
  (pySplitNl frontmatterStr).foldl
    (fun m line =>
      match naiveParseLine line with
      | some kv => dictInsert m kv.1 (.str kv.2)
      | none => m)
    meta

/-- Model of `DocumentProcessor._extract_metadata` (processor.py lines 106-133),
parameterised by the YAML parser outcome function.

The Python code tests `content.startswith('---')`, then looks for the next
`'---'` with `content.find('---', 3)`; if found, it strips the text between
as the front-matter string, replaces `page_content` by the stripped
remainder, and merges the parsed keys into the metadata dict.  Note that
`doc.page_content` is reassigned (line 115) before the YAML parse, so even
the `raised` outcome leaves the content already rewritten. -/
def extractMetadata (yamlParse : String → YamlOutcome)
    (doc : PyDocument) : PyDocument :=
  let content := doc.page_content
  if "---".toList.isPrefixOf content.toList then
    match pyFind content "---" 3 with
    | some endIdx =>
      let frontmatterStr := pyStrip (pySlice content 3 endIdx)
      let newContent := pyStrip (pySlice content (endIdx + 3) content.length)
      let newMeta :=
        match yamlParse frontmatterStr with
        | .dict kvs => kvs.foldl (fun m kv => dictInsert m kv.1 kv.2) doc.metadata
        | .nonDict => doc.metadata
        | .yamlError => naiveFallback doc.metadata frontmatterStr
        | .raised => doc.metadata
      { page_content := newContent, metadata := newMeta }
    | none => doc
  else doc

/-- Model of `DocumentProcessor.process_file` (processor.py lines 51-92) for an
existing file with the given content.

* `yamlParse` abstracts the YAML library as in `extractMetadata`;
* `splitText` abstracts `RecursiveCharacterTextSplitter` on the (possibly
  rewritten) page content; langchain's `split_documents` gives every
  produced chunk a copy of the source document's metadata dict.

The `.md` extension check of line 53 short-circuits to `[]`; the storage
hand-off of lines 77-83 does not alter the returned chunks and is omitted. -/
def processFile (yamlParse : String → YamlOutcome)
    (splitText : String → List String)
    (filePath : String) (content : String) : List PyDocument :=
  if ¬ ".md".toList.isSuffixOf filePath.toList then []
  else
    let doc : PyDocument := ⟨content, [("source", .str filePath)]⟩
    let doc := extractMetadata yamlParse doc
    (splitText doc.page_content).map (fun s => ⟨s, doc.metadata⟩)

/-- Modelled from the spec (claim C2's notion of well-formedness, not from
the code): a content string begins with a well-formed front-matter block
when its first line is exactly the delimiter `---` and some later line is
exactly `---` again; the block body is everything strictly between the
opening line and the first such closing line, and the document body is
everything after the closing line. -/
def specFrontMatterParts (content : String) : Option (String × String) :=
  match pySplitNl content with
  | [] => none
  | first :: rest =>
    if first = "---" then
      match rest.findIdx? (fun l => l = "---") with
      | some j =>
          some (String.intercalate "\n" (rest.take j),
                String.intercalate "\n" (rest.drop (j + 1)))
      | none => none
    else none

/-! ## Configuration coercion (`RAGConfig._load_from_env`, `common/config.py`) -/

/-- A configuration default value, tagged with its Python type as tested by
the `isinstance` chain of config.py lines 136-154. -/
inductive ConfigVal where
  | str (s : String)
  | int (n : Int)
  | float (q : ℚ)
  | bool (b : Bool)
  | pyNone
  | strList (xs : List String)
  deriving Repr

/-- The per-key type coercion applied to an environment-variable override
(config.py lines 135-156), parameterised by Python's `int()` and `float()`
string parsers (`none` means the parser raises `ValueError`).

* a `bool` default coerces via `value.lower() in ("true", "yes", "1")`;
* an `int`/`float` default coerces via `int(value)` / `float(value)`,
  whose `ValueError` is uncaught and propagates (`Except.error`);
* a `None` default infers `int` or `float` from keywords in the key name,
  keeping the string when the parse fails (lines 143-154);
* any other default type keeps the raw string. -/
def coerceEnvValue (pyInt : String → Option Int) (pyFloat : String → Option ℚ)
    (configKey : String) (defaultValue : ConfigVal) (value : String) :
    Except String ConfigVal :=
  match defaultValue with
  | .bool _ => .ok (.bool (["true", "yes", "1"].contains (pyLower value)))
  | .int _ =>
    match pyInt value with
    | some n => .ok (.int n)
    | none => .error "ValueError"
  | .float _ =>
    match pyFloat value with
    | some q => .ok (.float q)
    | none => .error "ValueError"
  | .pyNone =>
    if ["timeout", "port", "max_tokens", "retry_attempts", "top_k"].any
        (fun kw => pyContains configKey kw) then
      match pyInt value with
      | some n => .ok (.int n)
      | none => .ok (.str value)
    else if ["temperature"].any (fun kw => pyContains configKey kw) then
      match pyFloat value with
      | some q => .ok (.float q)
      | none => .ok (.str value)
    else .ok (.str value)
  | _ => .ok (.str value)

/-! ## Concrete instances used by counterexamples and witnesses -/

/-- A markdown content whose front-matter block is well-formed in the sense
of the specification (opening `---` on its own line, closing `---` on a
later line) but whose front-matter body contains an embedded `---`. -/
def fmEmbeddedDashContent : String := "---\nt: a---b\n---\nbody"

/-- A YAML parser behaving like `yaml.safe_load` on the two front-matter
strings relevant to `fmEmbeddedDashContent` (`"t: a---b"` parses to the
mapping `{"t": "a---b"}`, `"t: a"` to `{"t": "a"}`). -/
def fmYamlParse : String → YamlOutcome := fun s =>
  if s = "t: a---b" then .dict [("t", .str "a---b")]
  else if s = "t: a" then .dict [("t", .str "a")]
  else .yamlError

/-- A splitter behaviour producing a single chunk holding the whole page
content (what `RecursiveCharacterTextSplitter` does below `chunk_size`). -/
def singleChunkSplit : String → List String := fun s => [s]

/-- A document whose metadata `source` value is a non-serializable Python
object (for example the `datetime.date` a YAML front matter produces for
`source: 2024-01-01`) whose `str()` is `"2024-01-01"`. -/
def dateSourceDoc : PyDocument :=
  ⟨"hello", [("source", MetaVal.other "2024-01-01")]⟩

/-- A deterministic stand-in for the per-document `uuid.uuid4()` draws. -/
def seqIdGen : Nat → String := fun i => "id-" ++ toString i

/-- An embedding behaviour assigning every text the vector `[1]`. -/
def unitEmbed : List String → List Embedding := fun ts => ts.map (fun _ => [1])

/-- An insert backend that succeeds and assigns the given primary keys. -/
def echoInsert : InsertBatch → Except String (List String) := fun b => .ok b.ids

/-- Integer / float parsers that always fail (contents irrelevant to the
boolean-coercion claims they witness). -/
def noParseInt : String → Option Int := fun _ => none

/-- See `noParseInt`. -/
def noParseFloat : String → Option ℚ := fun _ => none

/-- The registry produced by the three `ProviderFactory.register_provider`
calls of providers.py lines 445-447, with the provider classes modelled as
plain constructors. -/
def fullRegistry : ProviderRegistry :=
  [(.litellm, fun _ => ⟨.litellm, 0⟩),
   (.ollama, fun _ => ⟨.ollama, 0⟩),
   (.openai, fun _ => ⟨.openai, 0⟩)]

/-! # Theorems -/

/-- Claim C4: for every input to the Embedding Service, `embed_documents([])`
returns `[]` without invoking the provider backend (the `false` flag records
that no backend call happened, for any backend behaviour whatsoever); for
non-empty input a raising backend yields `[]` — never a partial list and
never an exception (the only non-empty-input outcomes are the backend's full
answer or `[]`, and the model is a total function); and `embed_query`
returns the empty vector when the backend raises. -/
theorem c4_embedding_service_error_policy :
    (∀ backend : List String → Except String (List Embedding),
        embedDocuments backend [] = ([], false)) ∧
    (∀ backend texts e, texts.isEmpty = false → backend texts = .error e →
        embedDocuments backend texts = ([], true)) ∧
    (∀ backend texts es, texts.isEmpty = false → backend texts = .ok es →
        embedDocuments backend texts = (es, true)) ∧
    (∀ backend query e, backend query = .error e →
        embedQuery backend query = []) := by
  refine ⟨fun _ => rfl, ?_, ?_, ?_⟩
  · intro backend texts e ht hb
    simp [embedDocuments, ht, hb]
  · intro backend texts es ht hb
    simp [embedDocuments, ht, hb]
  · intro backend query e hb
    simp [embedQuery, hb]

/-- Witness for `c4_embedding_service_error_policy` at concrete inputs. -/
theorem c4_embedding_service_error_policy_witness :
    embedDocuments (fun _ => .error "boom") ["a"] = ([], true) ∧
    embedQuery (fun _ => .error "boom") "q" = [] :=
  ⟨c4_embedding_service_error_policy.2.1 _ ["a"] "boom" rfl rfl,
   c4_embedding_service_error_policy.2.2.2 _ "q" "boom" rfl⟩

/-- Claim C3: for every vector whose length differs from the configured
embedding dimension, `search_with_embedding` returns `[]` and issues no
query to the storage backend (the empty query trace holds for every backend
behaviour, so the result cannot depend on the backend); for vectors of the
correct length, exactly one nearest-neighbour query is issued, bounded to
`k` results with `k` defaulting to the configured `retrieve_top_k` when
omitted, and the hits are converted to documents. -/
theorem c3_search_with_embedding_dimension_guard :
    (∀ topK dim backend emb kArg, emb.length ≠ dim →
        searchWithEmbedding topK dim backend emb kArg = ([], [])) ∧
    (∀ topK dim backend emb kArg hits, emb.length = dim →
        backend emb (kArg.getD topK) = .ok hits →
        searchWithEmbedding topK dim backend emb kArg =
          (hits.map (fun h => ⟨h.data, h.metadata⟩), [(emb, kArg.getD topK)])) ∧
    (∀ topK dim backend emb kArg e, emb.length = dim →
        backend emb (kArg.getD topK) = .error e →
        searchWithEmbedding topK dim backend emb kArg =
          ([], [(emb, kArg.getD topK)])) := by
  refine ⟨?_, ?_, ?_⟩
  · intro topK dim backend emb kArg h
    simp [searchWithEmbedding, h]
  · intro topK dim backend emb kArg hits h hb
    simp [searchWithEmbedding, h, hb]
  · intro topK dim backend emb kArg e h hb
    simp [searchWithEmbedding, h, hb]

/-- Witness for `c3_search_with_embedding_dimension_guard`: a length-1
vector against dimension 3072 (mismatch), and a length-2 vector against
dimension 2 (match, backend consulted with the default `k`). -/
theorem c3_search_with_embedding_dimension_guard_witness :
    searchWithEmbedding 5 3072 (fun _ _ => .ok [⟨"d", [], .str "s"⟩]) [1] none
      = ([], []) ∧
    searchWithEmbedding 5 2 (fun _ _ => .ok [⟨"d", [], .str "s"⟩]) [1, 2] none
      = ([⟨"d", []⟩], [([1, 2], 5)]) :=
  ⟨c3_search_with_embedding_dimension_guard.1 5 3072 _ [1] none (by decide),
   c3_search_with_embedding_dimension_guard.2.1 5 2 _ [1, 2] none
     [⟨"d", [], .str "s"⟩] rfl rfl⟩

/-- Claim C7: for every provider implementation (LiteLLM, Ollama, OpenAI)
and every backend condition, `health_check()` never raises — each model is a
total boolean function of the probe outcome — and any failure (raised
exception) during the probe is converted into the return value `False`.
For Ollama a non-raising probe with a status other than 200 also yields
`False`; non-raising probes yield `True` for the other two providers. -/
theorem c7_health_check_converts_failure_to_false :
    (∀ e : String, litellmHealthCheck (.error e) = false) ∧
    (litellmHealthCheck (.ok ()) = true) ∧
    (∀ e : String, ollamaHealthCheck (.error e) = false) ∧
    (∀ status : Nat, status ≠ 200 → ollamaHealthCheck (.ok status) = false) ∧
    (ollamaHealthCheck (.ok 200) = true) ∧
    (∀ e : String, openaiHealthCheck (.error e) = false) ∧
    (∀ v : Embedding, openaiHealthCheck (.ok v) = true) := by
  refine ⟨fun _ => rfl, rfl, fun _ => rfl, ?_, rfl, fun _ => rfl, fun _ => rfl⟩
  intro status h
  simp [ollamaHealthCheck, h]

/-- Witness for `c7_health_check_converts_failure_to_false`: an unreachable
Ollama backend answering 404. -/
theorem c7_health_check_converts_failure_to_false_witness :
    ollamaHealthCheck (.ok 404) = false :=
  c7_health_check_converts_failure_to_false.2.2.2.1 404 (by decide)

/-- Helper: the first component of `resolveQueryProvider` by cases. -/
theorem resolveQueryProvider_fst (factory : ProviderType → Provider)
    (co : Coordinator) (override : Option ProviderType) :
    (resolveQueryProvider factory co override).1 =
      match override with
      | some t =>
          if t ≠ co.provider.providerType then factory t else co.provider
      | none => co.provider := by
  rcases override with _ | t
  · rfl
  · by_cases h : t = co.provider.providerType <;> simp [resolveQueryProvider, h]

/-- Helper: the second component of `resolveQueryProvider` by cases. -/
theorem resolveQueryProvider_snd (factory : ProviderType → Provider)
    (co : Coordinator) (override : Option ProviderType) :
    (resolveQueryProvider factory co override).2 =
      match override with
      | some t => if t ≠ co.provider.providerType then [factory t] else []
      | none => [] := by
  rcases override with _ | t
  · rfl
  · by_cases h : t = co.provider.providerType <;> simp [resolveQueryProvider, h]

/-- Helper: the provider resolved by a `ragQuery` call, independent of the
retrieval outcome. -/
theorem ragQuery_usedProvider (embedQueryFn : String → Embedding)
    (searchFn : Embedding → Option Nat → List PyDocument)
    (factory : ProviderType → Provider) (invoke : Provider → String → String)
    (co : Coordinator) (queryText : String) (override : Option ProviderType) :
    (ragQuery embedQueryFn searchFn factory invoke co queryText
        override).usedProvider =
      (resolveQueryProvider factory co override).1 := by
  unfold ragQuery
  dsimp only
  split <;> rfl

/-- Helper: the providers constructed during a `ragQuery` call. -/
theorem ragQuery_newProviders (embedQueryFn : String → Embedding)
    (searchFn : Embedding → Option Nat → List PyDocument)
    (factory : ProviderType → Provider) (invoke : Provider → String → String)
    (co : Coordinator) (queryText : String) (override : Option ProviderType) :
    (ragQuery embedQueryFn searchFn factory invoke co queryText
        override).newProviders =
      (resolveQueryProvider factory co override).2 := by
  unfold ragQuery
  dsimp only
  split <;> rfl

/-- Helper: a `ragQuery` call leaves the coordinator state unchanged (the
Python method assigns no instance attribute). -/
theorem ragQuery_coordinatorAfter (embedQueryFn : String → Embedding)
    (searchFn : Embedding → Option Nat → List PyDocument)
    (factory : ProviderType → Provider) (invoke : Provider → String → String)
    (co : Coordinator) (queryText : String) (override : Option ProviderType) :
    (ragQuery embedQueryFn searchFn factory invoke co queryText
        override).coordinatorAfter = co := by
  unfold ragQuery
  dsimp only
  split <;> rfl

/-- Claim C1: in every `RAGService.query` call, if retrieval yields zero
chunks the completion is invoked with the bare query text as the prompt and
the result has `no_context = true` and empty context; if retrieval yields
one or more chunks, the prompt is the fixed instruction template
(`ragPrompt`) embedding the retrieved chunks concatenated as enumerated
"Document N:" blocks (`contextText`) plus the original question, and the
result has `no_context = false` and context equal to the retrieved
chunks.  In both branches the response is the completion's answer to the
prompt that was sent. -/
theorem c1_query_prompt_assembly_and_context_flag
    (embedQueryFn : String → Embedding)
    (searchFn : Embedding → Option Nat → List PyDocument)
    (factory : ProviderType → Provider) (invoke : Provider → String → String)
    (co : Coordinator) (queryText : String) (override : Option ProviderType)
    (docs : List PyDocument) (out : QueryOutcome)
    (hdocs : searchFn (embedQueryFn queryText) co.retrieveTopK = docs)
    (hout : out = ragQuery embedQueryFn searchFn factory invoke co queryText
        override) :
    (docs = [] →
        out.promptSent = queryText ∧
        out.result.no_context = true ∧
        out.result.context = [] ∧
        out.result.query = queryText ∧
        out.result.response = invoke out.usedProvider queryText) ∧
    (docs ≠ [] →
        out.promptSent = ragPrompt (contextText docs) queryText ∧
        out.result.no_context = false ∧
        out.result.context = docs ∧
        out.result.query = queryText ∧
        out.result.response = invoke out.usedProvider out.promptSent) := by
  subst hout
  constructor
  · intro hnil
    unfold ragQuery
    simp [hdocs, hnil]
  · intro hne
    unfold ragQuery
    simp [hdocs, List.isEmpty_eq_false.mpr hne]

/-- Witness for `c1_query_prompt_assembly_and_context_flag`: one retrieval
returning nothing, one returning a single chunk. -/
theorem c1_query_prompt_assembly_and_context_flag_witness :
    (ragQuery (fun _ => [1]) (fun _ _ => []) (fun t => ⟨t, 1⟩)
        (fun _ p => p) ⟨⟨.litellm, 0⟩, "gpt-4o", some 5⟩ "q" none).promptSent
      = "q" ∧
    (ragQuery (fun _ => [1]) (fun _ _ => [⟨"c", []⟩]) (fun t => ⟨t, 1⟩)
        (fun _ p => p) ⟨⟨.litellm, 0⟩, "gpt-4o", some 5⟩ "q" none).promptSent
      = ragPrompt (contextText [⟨"c", []⟩]) "q" :=
  ⟨((c1_query_prompt_assembly_and_context_flag (fun _ => [1]) (fun _ _ => [])
      (fun t => ⟨t, 1⟩) (fun _ p => p) ⟨⟨.litellm, 0⟩, "gpt-4o", some 5⟩ "q"
      none [] _ rfl rfl).1 rfl).1,
   ((c1_query_prompt_assembly_and_context_flag (fun _ => [1])
      (fun _ _ => [⟨"c", []⟩]) (fun t => ⟨t, 1⟩) (fun _ p => p)
      ⟨⟨.litellm, 0⟩, "gpt-4o", some 5⟩ "q" none [⟨"c", []⟩] _ rfl rfl).2
      (by simp)).1⟩

/-- Claim C6: a `query` call whose provider-type override differs from the
default provider's type constructs exactly one fresh provider through the
factory and uses it for that call only, leaving the coordinator's default
provider field unchanged, so that a subsequent call without an override
uses the original shared default provider; when the override equals the
default type or is absent, the shared default provider is used and no
provider is constructed. -/
theorem c6_provider_override_is_per_call
    (embedQueryFn : String → Embedding)
    (searchFn : Embedding → Option Nat → List PyDocument)
    (factory : ProviderType → Provider) (invoke : Provider → String → String)
    (co : Coordinator) (q1 q2 : String) (t : ProviderType) :
    (t ≠ co.provider.providerType →
        (ragQuery embedQueryFn searchFn factory invoke co q1
            (some t)).usedProvider = factory t ∧
        (ragQuery embedQueryFn searchFn factory invoke co q1
            (some t)).newProviders = [factory t] ∧
        (ragQuery embedQueryFn searchFn factory invoke co q1
            (some t)).coordinatorAfter = co ∧
        (ragQuery embedQueryFn searchFn factory invoke
            (ragQuery embedQueryFn searchFn factory invoke co q1
              (some t)).coordinatorAfter
            q2 none).usedProvider = co.provider) ∧
    (t = co.provider.providerType →
        (ragQuery embedQueryFn searchFn factory invoke co q1
            (some t)).usedProvider = co.provider ∧
        (ragQuery embedQueryFn searchFn factory invoke co q1
            (some t)).newProviders = []) ∧
    ((ragQuery embedQueryFn searchFn factory invoke co q1
        none).usedProvider = co.provider ∧
     (ragQuery embedQueryFn searchFn factory invoke co q1
        none).newProviders = []) := by
  refine ⟨?_, ?_, ?_, ?_⟩
  · intro h
    refine ⟨?_, ?_, ?_, ?_⟩
    · rw [ragQuery_usedProvider, resolveQueryProvider_fst]; simp [h]
    · rw [ragQuery_newProviders, resolveQueryProvider_snd]; simp [h]
    · exact ragQuery_coordinatorAfter ..
    · rw [ragQuery_coordinatorAfter, ragQuery_usedProvider,
        resolveQueryProvider_fst]
  · intro h
    constructor
    · rw [ragQuery_usedProvider, resolveQueryProvider_fst]; simp [h]
    · rw [ragQuery_newProviders, resolveQueryProvider_snd]; simp [h]
  · rw [ragQuery_usedProvider, resolveQueryProvider_fst]
  · rw [ragQuery_newProviders, resolveQueryProvider_snd]

/-- Witness for `c6_provider_override_is_per_call`: an `ollama` override on
a coordinator whose default provider is a `litellm` instance. -/
theorem c6_provider_override_is_per_call_witness :
    (ragQuery (fun _ => [1]) (fun _ _ => []) (fun t => ⟨t, 7⟩) (fun _ p => p)
        ⟨⟨.litellm, 0⟩, "gpt-4o", some 5⟩ "q" (some .ollama)).usedProvider
      = ⟨.ollama, 7⟩ ∧
    (ragQuery (fun _ => [1]) (fun _ _ => []) (fun t => ⟨t, 7⟩) (fun _ p => p)
        ⟨⟨.litellm, 0⟩, "gpt-4o", some 5⟩ "q" (some .ollama)).newProviders
      = [⟨.ollama, 7⟩] :=
  ⟨((c6_provider_override_is_per_call (fun _ => [1]) (fun _ _ => [])
      (fun t => ⟨t, 7⟩) (fun _ p => p) ⟨⟨.litellm, 0⟩, "gpt-4o", some 5⟩
      "q" "q2" .ollama).1 (by decide)).1,
   ((c6_provider_override_is_per_call (fun _ => [1]) (fun _ _ => [])
      (fun t => ⟨t, 7⟩) (fun _ p => p) ⟨⟨.litellm, 0⟩, "gpt-4o", some 5⟩
      "q" "q2" .ollama).1 (by decide)).2.1⟩

/-- Helper: looking up a key in the filtered metadata is looking it up in
the original metadata and coercing the value. -/
theorem dictGet?_filterMetadata (meta : Metadata) (k : String) :
    dictGet? (filterMetadata meta) k = (dictGet? meta k).map coerceMetaVal := by
  unfold dictGet? filterMetadata
  rw [List.find?_map]
  have hp : ((fun kv : String × MetaVal => kv.1 == k) ∘
      fun kv : String × MetaVal => (kv.1, coerceMetaVal kv.2)) =
      (fun kv : String × MetaVal => kv.1 == k) := rfl
  rw [hp]
  cases meta.find? (fun kv : String × MetaVal => kv.1 == k) <;> rfl

/-- Helper: `dictGetD` through `dictGet?`. -/
theorem dictGetD_eq_getD (meta : Metadata) (k : String) (dflt : MetaVal) :
    dictGetD meta k dflt = (dictGet? meta k).getD dflt := by
  unfold dictGetD dictGet?
  cases meta.find? (fun kv : String × MetaVal => kv.1 == k) <;> rfl

/-- Helper: `dictGetD` on filtered metadata, via `dictGet?` on the
original. -/
theorem dictGetD_filterMetadata (meta : Metadata) (k : String) (dflt : MetaVal) :
    dictGetD (filterMetadata meta) k dflt =
      match dictGet? meta k with
      | some v => coerceMetaVal v
      | none => dflt := by
  rw [dictGetD_eq_getD, dictGet?_filterMetadata]
  cases dictGet? meta k <;> rfl

/-- Helper: a serializable value passes the `isinstance` filter
unchanged. -/
theorem coerceMetaVal_of_serializable (v : MetaVal)
    (h : isSerializable v = true) : coerceMetaVal v = v := by
  cases v <;> simp_all [isSerializable, coerceMetaVal]

/-- Claim C5: `add_documents` never raises (the model is a total function
whose value is described exhaustively below); it returns an empty sequence
when the chunk list is empty (for any embedding-service configuration),
when no embedding service is configured, or when the insert step raises
(in particular when the embedding step failed, since the batch then has no
vectors and the backend rejects mismatched columns); otherwise it draws one
fresh identifier per chunk (pairwise distinct when the identifier supply is
injective), embeds all chunk texts in one batch call, coerces the metadata
dicts, performs exactly one insert of the whole batch followed by one
flush, and returns the identifiers assigned by the insert. -/
theorem c5_add_documents_error_policy_and_batch
    (idGen : Nat → String) (embed : List String → List Embedding)
    (insertBackend : InsertBatch → Except String (List String))
    (documents : List PyDocument) :
    (∀ svc, addDocuments idGen svc insertBackend [] = ([], [])) ∧
    (documents.isEmpty = false →
        addDocuments idGen none insertBackend documents = ([], [])) ∧
    (∀ e, documents.isEmpty = false →
        insertBackend (insertBatchOf idGen embed documents) = .error e →
        addDocuments idGen (some embed) insertBackend documents =
          ([], [.insert (insertBatchOf idGen embed documents)])) ∧
    (∀ keys, documents.isEmpty = false →
        insertBackend (insertBatchOf idGen embed documents) = .ok keys →
        addDocuments idGen (some embed) insertBackend documents =
          (keys, [.insert (insertBatchOf idGen embed documents), .flush])) ∧
    (documents.isEmpty = false →
        embed (documents.map (·.page_content)) = [] →
        (∀ b : InsertBatch, b.vectors.length ≠ b.ids.length →
            ∃ e, insertBackend b = .error e) →
        (addDocuments idGen (some embed) insertBackend documents).1 = []) ∧
    ((insertBatchOf idGen embed documents).ids =
        (List.range documents.length).map idGen) ∧
    ((insertBatchOf idGen embed documents).ids.length = documents.length) ∧
    (Function.Injective idGen →
        (insertBatchOf idGen embed documents).ids.Nodup) ∧
    ((insertBatchOf idGen embed documents).vectors =
        embed (documents.map (·.page_content))) ∧
    ((insertBatchOf idGen embed documents).contents =
        documents.map (·.page_content)) ∧
    ((insertBatchOf idGen embed documents).metadatas =
        documents.map (fun d => filterMetadata d.metadata)) := by
  refine ⟨fun svc => by cases svc <;> rfl, ?_, ?_, ?_, ?_, rfl, ?_, ?_, rfl,
    rfl, rfl⟩
  · intro h
    simp [addDocuments, h]
  · intro e h hins
    simp [addDocuments, h, hins]
  · intro keys h hins
    simp [addDocuments, h, hins]
  · intro h hembed hreject
    have hlen : documents.length ≠ 0 := by
      simpa [List.isEmpty_iff_length_eq_zero] using h
    have hmm : (insertBatchOf idGen embed documents).vectors.length ≠
        (insertBatchOf idGen embed documents).ids.length := by
      simp [insertBatchOf, hembed]
      omega
    obtain ⟨e, he⟩ := hreject _ hmm
    simp [addDocuments, h, he]
  · simp [insertBatchOf]
  · intro hinj
    exact (List.nodup_range _).map hinj

/-- Witness for `c5_add_documents_error_policy_and_batch`: a successful
one-document insert through an echoing backend, and a failing insert. -/
theorem c5_add_documents_error_policy_and_batch_witness :
    addDocuments seqIdGen (some unitEmbed) echoInsert [dateSourceDoc] =
      ((insertBatchOf seqIdGen unitEmbed [dateSourceDoc]).ids,
        [.insert (insertBatchOf seqIdGen unitEmbed [dateSourceDoc]), .flush]) ∧
    addDocuments seqIdGen (some unitEmbed) (fun _ => .error "down")
        [dateSourceDoc] =
      ([], [.insert (insertBatchOf seqIdGen unitEmbed [dateSourceDoc])]) :=
  ⟨(c5_add_documents_error_policy_and_batch seqIdGen unitEmbed echoInsert
      [dateSourceDoc]).2.2.2.1
      (insertBatchOf seqIdGen unitEmbed [dateSourceDoc]).ids rfl rfl,
   (c5_add_documents_error_policy_and_batch seqIdGen unitEmbed
      (fun _ => .error "down") [dateSourceDoc]).2.2.1 "down" rfl rfl⟩

/-- Claim C10, as stated, is false: the stored `doc_id` is read from the
already-filtered metadata, so when the chunk's metadata `source` value is a
non-serializable object (here one whose `str()` is `"2024-01-01"`, as a
YAML date produces), the stored `doc_id` is its string representation, not
the chunk's metadata value itself. -/
theorem c10_doc_id_counterexample :
    dictGet? dateSourceDoc.metadata "source" =
      some (MetaVal.other "2024-01-01") ∧
    (insertBatchOf seqIdGen unitEmbed [dateSourceDoc]).docIds =
      [MetaVal.str "2024-01-01"] ∧
    addDocuments seqIdGen (some unitEmbed) echoInsert [dateSourceDoc] =
      (["id-0"],
        [.insert (insertBatchOf seqIdGen unitEmbed [dateSourceDoc]), .flush]) ∧
    MetaVal.str "2024-01-01" ≠ MetaVal.other "2024-01-01" := by
  refine ⟨rfl, rfl, rfl, fun h => MetaVal.noConfusion h⟩

/-- Claim C10 (amended): for every chunk inserted by `add_documents`, the
stored `doc_id` equals the chunk's metadata `source` value after metadata
coercion — the value itself when it is of a serializable type, its string
representation when not — and the literal `"unknown"` when the key is
absent; and every metadata value of type string, int, float, bool, list or
dict is stored unchanged while any value of another type is replaced by its
string representation before insertion. -/
theorem c10_doc_id_and_metadata_coercion
    (idGen : Nat → String) (embed : List String → List Embedding)
    (documents : List PyDocument) (i : Nat) (d : PyDocument)
    (hd : documents[i]? = some d) :
    ((insertBatchOf idGen embed documents).metadatas[i]? =
        some (filterMetadata d.metadata)) ∧
    (∀ v, dictGet? d.metadata "source" = some v → isSerializable v = true →
        (insertBatchOf idGen embed documents).docIds[i]? = some v) ∧
    (∀ s, dictGet? d.metadata "source" = some (MetaVal.other s) →
        (insertBatchOf idGen embed documents).docIds[i]? =
          some (MetaVal.str s)) ∧
    (dictGet? d.metadata "source" = none →
        (insertBatchOf idGen embed documents).docIds[i]? =
          some (MetaVal.str "unknown")) ∧
    (∀ k v, (k, v) ∈ d.metadata → isSerializable v = true →
        (k, v) ∈ filterMetadata d.metadata) ∧
    (∀ k s, (k, MetaVal.other s) ∈ d.metadata →
        (k, MetaVal.str s) ∈ filterMetadata d.metadata) := by
  have hdoc : (insertBatchOf idGen embed documents).docIds[i]? =
      some (dictGetD (filterMetadata d.metadata) "source"
        (.str "unknown")) := by
    simp [insertBatchOf, List.getElem?_map, hd]
  have hmeta : (insertBatchOf idGen embed documents).metadatas[i]? =
      some (filterMetadata d.metadata) := by
    simp [insertBatchOf, List.getElem?_map, hd]
  refine ⟨hmeta, ?_, ?_, ?_, ?_, ?_⟩
  · intro v hv hser
    rw [hdoc, dictGetD_filterMetadata, hv]
    simp [coerceMetaVal_of_serializable v hser]
  · intro s hv
    rw [hdoc, dictGetD_filterMetadata, hv]
    rfl
  · intro hv
    rw [hdoc, dictGetD_filterMetadata, hv]
  · intro k v hmem hser
    have := List.mem_map_of_mem
      (fun kv : String × MetaVal => (kv.1, coerceMetaVal kv.2)) hmem
    simpa [filterMetadata, coerceMetaVal_of_serializable v hser] using this
  · intro k s hmem
    have := List.mem_map_of_mem
      (fun kv : String × MetaVal => (kv.1, coerceMetaVal kv.2)) hmem
    simpa [filterMetadata, coerceMetaVal] using this

/-- Witness for `c10_doc_id_and_metadata_coercion`: the date-valued
`source` of `dateSourceDoc` is stored as its string representation. -/
theorem c10_doc_id_and_metadata_coercion_witness :
    (insertBatchOf seqIdGen unitEmbed [dateSourceDoc]).docIds[0]? =
      some (MetaVal.str "2024-01-01") :=
  (c10_doc_id_and_metadata_coercion seqIdGen unitEmbed [dateSourceDoc] 0
      dateSourceDoc rfl).2.2.1 "2024-01-01" rfl

/-- Claim C8, as stated, is false: the claimed true-keyword set includes
`"on"`, but the code (config.py line 138) tests membership of the lowercased
override in `("true", "yes", "1")` only, so the override string `"on"` for a
key with a boolean default is coerced to `False`, not `True`. -/
theorem c8_boolean_keyword_counterexample :
    coerceEnvValue noParseInt noParseFloat "enable_fallback"
        (.bool true) "on" = .ok (.bool false) ∧
    pyLower "on" = "on" ∧
    (Except.ok (ConfigVal.bool false) : Except String ConfigVal) ≠
      .ok (.bool true) := by
  refine ⟨rfl, rfl, ?_⟩
  intro h
  simp at h

/-- Claim C8 (amended): for a configuration key with a boolean default, an
environment-variable override is coerced to `True` exactly when its
lowercasing is one of `"true"`, `"yes"`, `"1"`, and to `False` for every
other string — including `"on"` (and the strings of the claimed false set,
which fall out of the general clause); for keys with integer or float
defaults the override string is coerced through the respective numeric
parser, whose failure propagates as an uncaught `ValueError`. -/
theorem c8_env_override_type_coercion (pyInt : String → Option Int)
    (pyFloat : String → Option ℚ) (key value : String) :
    (∀ b, (pyLower value = "true" ∨ pyLower value = "yes" ∨
          pyLower value = "1") →
        coerceEnvValue pyInt pyFloat key (.bool b) value = .ok (.bool true)) ∧
    (∀ b, pyLower value ≠ "true" → pyLower value ≠ "yes" →
        pyLower value ≠ "1" →
        coerceEnvValue pyInt pyFloat key (.bool b) value = .ok (.bool false)) ∧
    (∀ b, coerceEnvValue pyInt pyFloat key (.bool b) "on" =
        .ok (.bool false)) ∧
    (∀ d n, pyInt value = some n →
        coerceEnvValue pyInt pyFloat key (.int d) value = .ok (.int n)) ∧
    (∀ d, pyInt value = none →
        coerceEnvValue pyInt pyFloat key (.int d) value =
          .error "ValueError") ∧
    (∀ d q, pyFloat value = some q →
        coerceEnvValue pyInt pyFloat key (.float d) value = .ok (.float q)) ∧
    (∀ d, pyFloat value = none →
        coerceEnvValue pyInt pyFloat key (.float d) value =
          .error "ValueError") := by
  refine ⟨?_, ?_, ?_, ?_, ?_, ?_, ?_⟩
  · intro b h
    rcases h with h | h | h <;> simp [coerceEnvValue, h]
  · intro b h1 h2 h3
    simp [coerceEnvValue, h1, h2, h3]
  · intro b
    rfl
  · intro d n h
    simp [coerceEnvValue, h]
  · intro d h
    simp [coerceEnvValue, h]
  · intro d q h
    simp [coerceEnvValue, h]
  · intro d h
    simp [coerceEnvValue, h]

/-- Witness for `c8_env_override_type_coercion`: the keyword `"YES"` and a
parsed integer override. -/
theorem c8_env_override_type_coercion_witness :
    coerceEnvValue (fun _ => some 8000) noParseFloat "api_port"
        (.bool true) "YES" = .ok (.bool true) ∧
    coerceEnvValue (fun _ => some 8000) noParseFloat "api_port"
        (.int 8000) "8000" = .ok (.int 8000) :=
  ⟨(c8_env_override_type_coercion (fun _ => some 8000) noParseFloat
      "api_port" "YES").1 true (Or.inr (Or.inl rfl)),
   (c8_env_override_type_coercion (fun _ => some 8000) noParseFloat
      "api_port" "8000").2.2.2.1 8000 8000 rfl⟩

/-- Helper: a string of the shape `a ++ pat ++ b` contains `pat`. -/
theorem pyContains_append_middle (a pat b : String) :
    pyContains (a ++ pat ++ b) pat = true := by
  have key : pat.toList.isPrefixOf
      ((a ++ pat ++ b).toList.drop a.length) = true := by
    have hl : (a ++ pat ++ b).toList = a.toList ++ (pat.toList ++ b.toList) := by
      show (a ++ pat ++ b).data = a.data ++ (pat.data ++ b.data)
      rw [String.data_append, String.data_append, List.append_assoc]
    rw [hl]
    have hd : (a.toList ++ (pat.toList ++ b.toList)).drop a.length =
        pat.toList ++ b.toList := List.drop_left a.toList _
    rw [hd, List.isPrefixOf_iff_prefix]
    exact List.prefix_append _ _
  have hmem : a.length ∈ List.range' 0 ((a ++ pat ++ b).length + 1 - 0) := by
    rw [List.mem_range']
    have h1 := String.length_append (a ++ pat) b
    have h2 := String.length_append a pat
    exact ⟨a.length, by omega, by omega⟩
  unfold pyContains pyFind
  simp only [List.find?_isSome]
  exact ⟨a.length, hmem, key⟩

/-- Claim C9, as stated, is false: for a provider-type name that is not a
declared enum value (and hence not registered), `create_provider` raises
`ValueError("Unknown provider type: ...")` (models.py line 206) — a
descriptive error, but one that does not name the set of available
(registered) provider types; only the separate registered-check branch
(lines 208-210) does. -/
theorem c9_unknown_name_counterexample :
    createProvider fullRegistry (.name "deepseek") [] =
      .error "Unknown provider type: deepseek" ∧
    errNamesAvailableSet "Unknown provider type: deepseek" = false := by
  exact ⟨rfl, rfl⟩

/-- Claim C9 (amended): creating a provider from a name that is not a
declared provider-type value fails with the descriptive error
`Unknown provider type: <name>`, which does not carry the available set;
creating one from a declared provider type absent from the registry fails
with an error that names the set of available (registered) provider types;
a declared, registered type succeeds with an instance built by the
registered class. -/
theorem c9_factory_rejects_unregistered_types (registry : ProviderRegistry)
    (config : ProviderConfig) :
    (∀ s, providerTypeOfString s = none →
        createProvider registry (.name s) config =
          .error ("Unknown provider type: " ++ s)) ∧
    (∀ t, registry.find? (fun rc => rc.1 == t) = none →
        createProvider registry (.ptype t) config =
          .error ("Provider " ++ t.value ++ " not registered. " ++
            "Available providers: " ++ registryKeysRepr registry)) ∧
    (∀ t : ProviderType, errNamesAvailableSet
        ("Provider " ++ t.value ++ " not registered. " ++
          "Available providers: " ++ registryKeysRepr registry) = true) ∧
    (∀ t rc, registry.find? (fun rc => rc.1 == t) = some rc →
        createProvider registry (.ptype t) config = .ok (rc.2 config)) ∧
    (∀ s t, providerTypeOfString s = some t →
        createProvider registry (.name s) config =
          createProvider registry (.ptype t) config) := by
  refine ⟨?_, ?_, ?_, ?_, ?_⟩
  · intro s h
    simp [createProvider, h]
  · intro t h
    simp [createProvider, h]
  · intro t
    exact pyContains_append_middle
      ("Provider " ++ t.value ++ " not registered. ")
      "Available providers: " (registryKeysRepr registry)
  · intro t rc h
    simp [createProvider, h]
  · intro s t h
    simp [createProvider, h]

/-- Witness for `c9_factory_rejects_unregistered_types`: the unknown name
`"deepseek"` against the full registry, and the declared type `ollama`
against an empty registry. -/
theorem c9_factory_rejects_unregistered_types_witness :
    createProvider fullRegistry (.name "deepseek") [] =
      .error "Unknown provider type: deepseek" ∧
    createProvider [] (.ptype .ollama) [] =
      .error ("Provider " ++ ProviderType.ollama.value ++
        " not registered. " ++ "Available providers: " ++
        registryKeysRepr []) :=
  ⟨(c9_factory_rejects_unregistered_types fullRegistry []).1 "deepseek" rfl,
   (c9_factory_rejects_unregistered_types [] []).2.1 .ollama rfl⟩

/-! ## Document-processor lemmas (claim C2)

Python-string lemmas about `strip`, slicing and the front-matter
decomposition, followed by lookup lemmas for the insertion-ordered dict
updates performed when front-matter keys are merged into the metadata. -/

/-- Helper: stripping ignores a leading whitespace character. -/
theorem stripChars_cons_of_space (c : Char) (l : List Char)
    (hc : pyIsSpace c = true) : stripChars (c :: l) = stripChars l := by
  unfold stripChars
  rw [List.dropWhile_cons]
  simp [hc]

/-- Helper: stripping ignores a trailing whitespace character. -/
theorem stripChars_append_space (c : Char) (l : List Char)
    (hc : pyIsSpace c = true) : stripChars (l ++ [c]) = stripChars l := by
  induction l with
  | nil =>
    simp [stripChars, List.dropWhile, hc]
  | cons a tl ih =>
    by_cases ha : pyIsSpace a = true
    · rw [List.cons_append, stripChars_cons_of_space a _ ha,
        stripChars_cons_of_space a tl ha]
      exact ih
    · unfold stripChars
      have h1 : List.dropWhile pyIsSpace ((a :: tl) ++ [c]) =
          a :: (tl ++ [c]) := by
        rw [List.cons_append, List.dropWhile_cons]
        simp [ha]
      have h2 : List.dropWhile pyIsSpace (a :: tl) = a :: tl := by
        rw [List.dropWhile_cons]
        simp [ha]
      rw [h1, h2]
      have h3 : (a :: (tl ++ [c])).reverse = c :: (a :: tl).reverse := by
        simp
      rw [h3, List.dropWhile_cons]
      simp [hc]

/-- Helper: the newline padding around the front-matter body is absorbed by
`strip`. -/
theorem pyStrip_pad (fm : String) :
    pyStrip ⟨'\n' :: (fm.toList ++ ['\n'])⟩ = pyStrip fm := by
  unfold pyStrip
  congr 1
  rw [show (⟨'\n' :: (fm.toList ++ ['\n'])⟩ : String).toList =
      '\n' :: (fm.toList ++ ['\n']) from rfl]
  rw [stripChars_cons_of_space _ _ (by decide),
    stripChars_append_space _ _ (by decide)]

/-- Helper: a Python slice cutting out exactly the middle of a three-part
decomposition. -/
theorem pySlice_middle (s : String) (p mid suf : List Char) (a b : Nat)
    (hs : s.toList = p ++ (mid ++ suf))
    (ha : a = p.length) (hb : b - a = mid.length) :
    pySlice s a b = ⟨mid⟩ := by
  subst ha
  unfold pySlice
  congr 1
  rw [hs, List.drop_left, hb, List.take_left]

/-- Helper: a Python slice reaching to (at least) the end of the string
yields the suffix of a two-part decomposition. -/
theorem pySlice_suffix (s : String) (p suf : List Char) (a b : Nat)
    (hs : s.toList = p ++ suf) (ha : a = p.length)
    (hb : suf.length ≤ b - a) : pySlice s a b = ⟨suf⟩ := by
  subst ha
  unfold pySlice
  congr 1
  rw [hs, List.drop_left]
  exact List.take_of_length_le hb

/-- Helper: the character decomposition of a front-matter document. -/
theorem content_toList_decomp (fm rest : String) :
    ("---\n" ++ fm ++ "\n---" ++ rest).toList =
      ['-', '-', '-'] ++
        (('\n' :: (fm.toList ++ ['\n'])) ++
          (['-', '-', '-'] ++ rest.toList)) := by
  show ("---\n" ++ fm ++ "\n---" ++ rest).data = _
  rw [String.data_append, String.data_append, String.data_append]
  rw [show ("---\n" : String).data = ['-', '-', '-', '\n'] from rfl,
    show ("\n---" : String).data = ['\n', '-', '-', '-'] from rfl]
  simp

/-- Helper: `_extract_metadata` on a front-matter document whose closing
delimiter is the first occurrence of `---` found by the scan from index 3
(the hypothesis `hfind`): the front-matter string is the stripped block
body, the new page content is the stripped remainder, and the metadata
update follows the YAML outcome. -/
theorem extractMetadata_wellFormed (yamlParse : String → YamlOutcome)
    (fm rest : String) (meta0 : Metadata)
    (hfind : pyFind ("---\n" ++ fm ++ "\n---" ++ rest) "---" 3 =
      some (fm.length + 5)) :
    extractMetadata yamlParse ⟨"---\n" ++ fm ++ "\n---" ++ rest, meta0⟩ =
      ⟨pyStrip rest,
        match yamlParse (pyStrip fm) with
        | .dict kvs => kvs.foldl (fun m kv => dictInsert m kv.1 kv.2) meta0
        | .nonDict => meta0
        | .yamlError => naiveFallback meta0 (pyStrip fm)
        | .raised => meta0⟩ := by
  have hdecomp := content_toList_decomp fm rest
  have hpre : ("---".toList.isPrefixOf
      ("---\n" ++ fm ++ "\n---" ++ rest).toList) = true := by
    rw [hdecomp]
    rfl
  have hslice1 : pySlice ("---\n" ++ fm ++ "\n---" ++ rest) 3 (fm.length + 5) =
      ⟨'\n' :: (fm.toList ++ ['\n'])⟩ := by
    apply pySlice_middle _ ['-', '-', '-'] _ (['-', '-', '-'] ++ rest.toList)
    · exact hdecomp
    · rfl
    · show fm.length + 5 - 3 = ('\n' :: (fm.toList ++ ['\n'])).length
      have : fm.toList.length = fm.length := rfl
      simp [this]
  have hslice2 : pySlice ("---\n" ++ fm ++ "\n---" ++ rest) (fm.length + 5 + 3)
      ("---\n" ++ fm ++ "\n---" ++ rest).length = rest := by
    have hd2 : ("---\n" ++ fm ++ "\n---" ++ rest).toList =
        (['-', '-', '-'] ++ (('\n' :: (fm.toList ++ ['\n'])) ++ ['-', '-', '-']))
          ++ rest.toList := by
      rw [hdecomp]
      simp
    have := pySlice_suffix ("---\n" ++ fm ++ "\n---" ++ rest)
      (['-', '-', '-'] ++ (('\n' :: (fm.toList ++ ['\n'])) ++ ['-', '-', '-']))
      rest.toList (fm.length + 5 + 3)
      ("---\n" ++ fm ++ "\n---" ++ rest).length hd2 ?_ ?_
    · exact this
    · have : fm.toList.length = fm.length := rfl
      simp [this]
    · have h1 : ("---\n" ++ fm ++ "\n---" ++ rest).length =
          fm.length + 8 + rest.length := by
        rw [String.length_append, String.length_append, String.length_append]
        rw [show ("---\n" : String).length = 4 from rfl,
          show ("\n---" : String).length = 4 from rfl]
        omega
      have h2 : rest.toList.length = rest.length := rfl
      rw [h1, h2]
      omega
  unfold extractMetadata
  simp only [hpre, if_true, hfind]
  rw [hslice1, hslice2, pyStrip_pad]

/-- Helper: replacing the value of key `k` leaves lookups of a different
key `k'` unchanged (the in-place branch of `dictInsert`). -/
theorem find?_map_dictInsert_ne (m : Metadata) (k k' : String) (v : MetaVal)
    (hne : k' ≠ k) :
    (m.map (fun kv => if kv.1 == k then (k, v) else kv)).find?
        (fun kv => kv.1 == k') =
      m.find? (fun kv => kv.1 == k') := by
  induction m with
  | nil => rfl
  | cons kv0 tl ih =>
    rw [List.map_cons]
    by_cases h0 : (kv0.1 == k) = true
    · have hk0 : kv0.1 = k := by simpa using h0
      rw [if_pos h0]
      have hp1 : ((k, v).1 == k') = false := by
        simp
        exact fun h => hne h.symm
      have hp0 : (kv0.1 == k') = false := by
        simp [hk0]
        exact fun h => hne h.symm
      rw [List.find?_cons, List.find?_cons, hp1, hp0]
      exact ih
    · rw [if_neg h0]
      by_cases hp : (kv0.1 == k') = true
      · rw [List.find?_cons, List.find?_cons, hp]
      · rw [List.find?_cons, List.find?_cons,
          show (kv0.1 == k') = false from by simpa using hp]
        exact ih

/-- Helper: appending a new entry with key `k` leaves lookups of a
different key `k'` unchanged (the append branch of `dictInsert`). -/
theorem find?_append_single_ne (m : Metadata) (k k' : String) (v : MetaVal)
    (hne : k' ≠ k) :
    (m ++ [(k, v)]).find? (fun kv => kv.1 == k') =
      m.find? (fun kv => kv.1 == k') := by
  induction m with
  | nil =>
    have hkk : ((k, v).1 == k') = false := by
      simp
      exact fun h => hne h.symm
    rw [List.nil_append, List.find?_cons, hkk]
  | cons kv0 tl ih =>
    rw [List.cons_append, List.find?_cons, List.find?_cons]
    by_cases hp : (kv0.1 == k') = true
    · rw [hp]
    · rw [show (kv0.1 == k') = false from by simpa using hp]
      exact ih

/-- Helper: looking up the just-inserted key finds the inserted value. -/
theorem dictGet?_dictInsert_same (m : Metadata) (k : String) (v : MetaVal) :
    dictGet? (dictInsert m k v) k = some v := by
  unfold dictInsert dictGet?
  split
  case isTrue hany =>
    induction m with
    | nil => simp at hany
    | cons kv0 tl ih =>
      rw [List.map_cons]
      by_cases h0 : (kv0.1 == k) = true
      · rw [if_pos h0, List.find?_cons, show ((k, v).1 == k) = true from by simp]
        rfl
      · rw [if_neg h0, List.find?_cons,
          show (kv0.1 == k) = false from by simpa using h0]
        apply ih
        rw [List.any_cons] at hany
        simpa [h0] using hany
  case isFalse hany =>
    induction m with
    | nil => simp [List.find?_cons]
    | cons kv0 tl ih =>
      have h0 : (kv0.1 == k) = false := by
        rw [List.any_cons] at hany
        by_contra hc
        simp at hc
        simp [hc] at hany
      rw [List.cons_append, List.find?_cons, h0]
      apply ih
      rw [List.any_cons] at hany
      intro hc
      exact hany (by simp [hc])

/-- Helper: inserting key `k` leaves lookups of other keys unchanged. -/
theorem dictGet?_dictInsert_ne (m : Metadata) (k k' : String) (v : MetaVal)
    (hne : k' ≠ k) :
    dictGet? (dictInsert m k v) k' = dictGet? m k' := by
  unfold dictInsert dictGet?
  split
  case isTrue hany => rw [find?_map_dictInsert_ne m k k' v hne]
  case isFalse hany => rw [find?_append_single_ne m k k' v hne]

/-- Helper: folding inserts of keys all different from `k` leaves the
lookup of `k` unchanged. -/
theorem dictGet?_foldl_dictInsert_not_mem (kvs : List (String × MetaVal))
    (m : Metadata) (k : String) (hk : ∀ kv ∈ kvs, kv.1 ≠ k) :
    dictGet? (kvs.foldl (fun m kv => dictInsert m kv.1 kv.2) m) k =
      dictGet? m k := by
  induction kvs generalizing m with
  | nil => rfl
  | cons kv0 tl ih =>
    rw [List.foldl_cons]
    rw [ih _ (fun kv hkv => hk kv (List.mem_cons_of_mem _ hkv))]
    exact dictGet?_dictInsert_ne m kv0.1 k kv0.2
      (fun h => hk kv0 (List.mem_cons_self _ _) h.symm)

/-- Helper: after inserting a key-distinct association list into any dict,
every inserted key looks up to its inserted value. -/
theorem dictGet?_foldl_dictInsert (kvs : List (String × MetaVal))
    (m : Metadata) (hnd : (kvs.map Prod.fst).Nodup) :
    ∀ kv ∈ kvs,
      dictGet? (kvs.foldl (fun m kv => dictInsert m kv.1 kv.2) m) kv.1 =
        some kv.2 := by
  induction kvs generalizing m with
  | nil => intro kv h; cases h
  | cons kv0 tl ih =>
    intro kv hkv
    rw [List.map_cons, List.nodup_cons] at hnd
    rw [List.foldl_cons]
    rcases List.mem_cons.mp hkv with rfl | htl
    · have hnotin : ∀ kv' ∈ tl, kv'.1 ≠ kv.1 := by
        intro kv' h' heq
        exact hnd.1 (heq ▸ List.mem_map_of_mem Prod.fst h')
      rw [dictGet?_foldl_dictInsert_not_mem tl _ kv.1 hnotin]
      exact dictGet?_dictInsert_same m kv.1 kv.2
    · exact ih _ hnd.2 kv htl

/-- Claim C2, as stated, is false: for the content
`"---\nt: a---b\n---\nbody"` — which begins with a well-formed front-matter
block in the claim's sense (`specFrontMatterParts` finds the opening
delimiter on its own line, the closing delimiter on a later line, block
body `"t: a---b"` and document body `"body"`) — `process_file` locates the
closing delimiter with `content.find('---', 3)`, which hits the `---`
embedded in the value, so the resulting chunk's content is
`"b\n---\nbody"` (the block is not stripped) and the metadata key `t`
carries `"a"` instead of the block's value `"a---b"`. -/
theorem c2_front_matter_counterexample :
    specFrontMatterParts fmEmbeddedDashContent = some ("t: a---b", "body") ∧
    processFile fmYamlParse singleChunkSplit "f.md" fmEmbeddedDashContent =
      [⟨"b\n---\nbody", [("source", .str "f.md"), ("t", .str "a")]⟩] ∧
    ("b\n---\nbody" : String) ≠ "body" ∧
    MetaVal.str "a" ≠ MetaVal.str "a---b" := by
  refine ⟨rfl, rfl, by decide, ?_⟩
  intro h
  injection h with h'
  exact absurd h' (by decide)

/-- Claim C2 (amended): for every markdown file whose content begins with a
well-formed front-matter block in which the first occurrence of `---` after
the opening delimiter is the closing delimiter (hypothesis `hfind`; without
that restriction the claim fails, see the counterexample), `process_file`
strips the front-matter block from every resulting chunk's content — the
chunks are split from the stripped document body only — and merges every
top-level front-matter key into every resulting chunk's metadata
identically (for key-distinct front matter, each key looks up to its
front-matter value); if YAML parsing fails, it falls back to naive
`key: value` line splitting; and on total extraction failure it produces
chunks without the extra metadata rather than raising. -/
theorem c2_front_matter_extraction (yamlParse : String → YamlOutcome)
    (splitText : String → List String) (path fm rest : String)
    (hmd : ".md".toList.isSuffixOf path.toList = true)
    (hfind : pyFind ("---\n" ++ fm ++ "\n---" ++ rest) "---" 3 =
      some (fm.length + 5)) :
    (∀ kvs, yamlParse (pyStrip fm) = .dict kvs →
        processFile yamlParse splitText path
            ("---\n" ++ fm ++ "\n---" ++ rest) =
          (splitText (pyStrip rest)).map (fun s =>
            ⟨s, kvs.foldl (fun m kv => dictInsert m kv.1 kv.2)
                  [("source", .str path)]⟩)) ∧
    (yamlParse (pyStrip fm) = .yamlError →
        processFile yamlParse splitText path
            ("---\n" ++ fm ++ "\n---" ++ rest) =
          (splitText (pyStrip rest)).map (fun s =>
            ⟨s, naiveFallback [("source", .str path)] (pyStrip fm)⟩)) ∧
    (yamlParse (pyStrip fm) = .raised →
        processFile yamlParse splitText path
            ("---\n" ++ fm ++ "\n---" ++ rest) =
          (splitText (pyStrip rest)).map (fun s =>
            ⟨s, [("source", .str path)]⟩)) ∧
    (∀ kvs : List (String × MetaVal), (kvs.map Prod.fst).Nodup → ∀ kv ∈ kvs,
        dictGet? (kvs.foldl (fun m kv => dictInsert m kv.1 kv.2)
          [("source", MetaVal.str path)]) kv.1 = some kv.2) := by
  have hext := extractMetadata_wellFormed yamlParse fm rest
    [("source", MetaVal.str path)] hfind
  refine ⟨?_, ?_, ?_, ?_⟩
  · intro kvs hy
    unfold processFile
    rw [if_neg (not_not_intro hmd)]
    dsimp only
    rw [hext, hy]
  · intro hy
    unfold processFile
    rw [if_neg (not_not_intro hmd)]
    dsimp only
    rw [hext, hy]
  · intro hy
    unfold processFile
    rw [if_neg (not_not_intro hmd)]
    dsimp only
    rw [hext, hy]
  · intro kvs hnd
    exact dictGet?_foldl_dictInsert kvs _ hnd

/-- Witness for `c2_front_matter_extraction`: the file `doc.md` with
front-matter body `t: a` and document body `body`, split into a single
chunk. -/
theorem c2_front_matter_extraction_witness :
    processFile fmYamlParse singleChunkSplit "doc.md"
        ("---\n" ++ "t: a" ++ "\n---" ++ "\nbody") =
      (singleChunkSplit (pyStrip "\nbody")).map (fun s =>
        ⟨s, [("t", MetaVal.str "a")].foldl
              (fun m kv => dictInsert m kv.1 kv.2)
              [("source", .str "doc.md")]⟩) :=
  (c2_front_matter_extraction fmYamlParse singleChunkSplit "doc.md" "t: a"
      "\nbody" rfl rfl).1 [("t", .str "a")] rfl

end Obelisk
